import Mathlib

/-!
Verification development for the python-config-rs repository.

The repository wraps an external Python interpreter: it builds small Python
scripts, runs them through a subprocess commander, and post-processes the
captured standard output into configuration strings.  The embedding below
translates the Rust sources:

  * `src/cmdr.rs`   -- the `Commander` seam and the `SysCommand` invoker;
  * `src/lib.rs`    -- `PythonConfig`, `build_script`, and every accessor;
  * `src/script.rs` -- the `tab!` / `target_line!` / `linux_line!` /
                        `macos_line!` macros;
  * `src/bin/python3-config.rs` and `src/bin/python-config.rs` -- the two
    CLI front ends (their argument filtering and usage/exit behavior).

Subprocesses are modelled by an oracle (`Cmdr`) mapping an argument list to
the decoded standard output, mirroring the repository's own `StaticCommand`
test double.  Each accessor returns its `Result` together with the list of
commands it issued, so that claims about the number of subprocess calls are
provable.  `PathBuf` is modelled as `String` (`PathBuf::from` is the
identity on the textual content).
-/

/-! ### String utilities

Models of the Rust standard-library string operations used by the sources,
implemented by structural recursion on the character list of a `String` so
that they evaluate inside the kernel. -/

/-- Model of Rust `str::split_whitespace` on a character list: maximal runs
of non-whitespace characters; leading/trailing/repeated whitespace produces
no empty items.  `acc` holds the current chunk reversed. -/
def splitWsAux : List Char → List Char → List (List Char)
  | [], acc => if acc.isEmpty then [] else [acc.reverse]
  | c :: cs, acc =>
    if c.isWhitespace then
      if acc.isEmpty then splitWsAux cs [] else acc.reverse :: splitWsAux cs []
    else splitWsAux cs (c :: acc)

/-- Model of Rust `str::split_whitespace` (collected to a list). -/
def rustSplitWhitespace (s : String) : List String :=
  (splitWsAux s.data []).map String.mk

/-- Splits a character list at every occurrence of `sep`, keeping empty
chunks, as Rust `str::split(sep)` does.  `acc` holds the current chunk
reversed. -/
def splitChAux (sep : Char) : List Char → List Char → List (List Char)
  | [], acc => [acc.reverse]
  | c :: cs, acc =>
    if c = sep then acc.reverse :: splitChAux sep cs []
    else splitChAux sep cs (c :: acc)

/-- Finalizes one line for the `lines` model: the accumulator is reversed,
so a trailing carriage return is its head; Rust strips it. -/
def lineOf (acc : List Char) : List Char :=
  match acc with
  | [] => []
  | c :: t => if c = '\r' then t.reverse else (c :: t).reverse

/-- Model of Rust `str::lines` on a character list: split at every newline,
drop one trailing carriage return per line, and produce no final empty line
for a trailing newline. -/
def linesAux : List Char → List Char → List (List Char)
  | [], acc => if acc.isEmpty then [] else [lineOf acc]
  | c :: cs, acc =>
    if c = '\n' then lineOf acc :: linesAux cs []
    else linesAux cs (c :: acc)

/-- Model of Rust `str::lines` (collected to a list). -/
def rustLines (s : String) : List String :=
  (linesAux s.data []).map String.mk

/-- Model of Rust `str::trim`: whitespace removed from both ends. -/
def rustTrim (s : String) : String :=
  String.mk (((s.data.dropWhile Char.isWhitespace).reverse.dropWhile
    Char.isWhitespace).reverse)

/-- Model of Python `sep.join(list)` and Rust `[..].join(sep)`: the items
interleaved with the separator. -/
def pyJoin (sep : String) : List String → String
  | [] => ""
  | [x] => x
  | x :: xs => x ++ sep ++ pyJoin sep xs

/-- Character list before the first occurrence of `c` (used by the
semantic-version parser to drop pre-release and build metadata). -/
def takeUntilCh (c : Char) : List Char → List Char
  | [] => []
  | x :: xs => if x = c then [] else x :: takeUntilCh c xs

/-! ### Semantic versions

The repository delegates version parsing to the external `semver` crate,
whose source is not part of the repository. -/

/-- A parsed three-component semantic version. -/
structure SemVer where
  major : Nat
  minor : Nat
  patch : Nat
deriving DecidableEq, Repr

/-- A numeric semantic-version component: nonempty, all digits, and no
leading zero unless it is the single digit zero. -/
def numericComponent (l : List Char) : Bool :=
  !l.isEmpty && l.all Char.isDigit && (l.length = 1 || !(l.headD 'x' = '0'))

/-- Digits to a natural number (most significant first). -/
def digitsToNat (l : List Char) : Nat :=
  l.foldl (fun n c => n * 10 + (c.toNat - 48)) 0

/-- Modelled from the spec: the external `semver` crate's `Version::parse`
(the crate's source is not in the repository).  A valid version is three
dot-separated numeric components, optionally followed by pre-release
(after a hyphen) and build metadata (after a plus sign), which this model
accepts and discards. -/
def semverParse (s : String) : Option SemVer :=
  let core := takeUntilCh '-' (takeUntilCh '+' s.data)
  match splitChAux '.' core [] with
  | [ma, mi, pa] =>
    if numericComponent ma && numericComponent mi && numericComponent pa then
      some ⟨digitsToNat ma, digitsToNat mi, digitsToNat pa⟩
    else none
  | _ => none

/-! ### The commander seam (`src/cmdr.rs`) -/

/-- Errors produced at the subprocess boundary, modelling the
`std::io::Error` values that `SysCommand` can surface: a failed process
launch, standard output that is not valid UTF-8, a missing entry in a
static test double, or any other I/O condition. -/
inductive CmdErr where
  | notFound
  | launchFailure (msg : String)
  | decodeFailure
  | otherIoErr (msg : String)
deriving DecidableEq, Repr

/-- The commander seam from `src/cmdr.rs`: an oracle mapping the argument
list passed to the interpreter to the decoded standard output (or an I/O
error).  This mirrors the repository's own `Commander` trait together with
its `StaticCommand` test double. -/
structure Cmdr where
  run : List String → Except CmdErr String

/-- Model of `StaticCommand` from `src/cmdr.rs`: fixed responses keyed by
the exact argument list, an unknown key being an I/O error. -/
def staticCmdr (table : List (List String × String)) : Cmdr :=
  ⟨fun args =>
    match List.lookup args table with
    | some resp => Except.ok resp
    | none => Except.error CmdErr.notFound⟩

/-! ### The launch-level model of `SysCommand`

`SysCommand::command` and `SysCommand::commands` both spawn one process via
`std::process::Command::output`, then decode the captured stdout as UTF-8.
The exit status of the child is never inspected. -/

/-- What the operating system does for one process launch: either the
binary cannot be launched, or the process runs to completion with some exit
code and raw standard-output bytes. -/
inductive LaunchOutcome where
  | noLaunch (msg : String)
  | ran (exitCode : Int) (stdout : List Nat)

/-- Is `b` a UTF-8 continuation byte? -/
def contByte (b : Nat) : Bool := 128 ≤ b && b < 192

/-- Strict UTF-8 decoder on bytes, as `str::from_utf8` validates: rejects
stray continuation bytes, overlong encodings, surrogate code points and
code points above 0x10FFFF. -/
def utf8DecodeChars : List Nat → Option (List Char)
  | [] => some []
  | b :: rest =>
    if b < 128 then
      (utf8DecodeChars rest).map (fun cs => Char.ofNat b :: cs)
    else if b < 192 then none
    else if b < 224 then
      match rest with
      | c1 :: rest2 =>
        if contByte c1 then
          let cp := (b - 192) * 64 + (c1 - 128)
          if 128 ≤ cp then (utf8DecodeChars rest2).map (fun cs => Char.ofNat cp :: cs)
          else none
        else none
      | [] => none
    else if b < 240 then
      match rest with
      | c1 :: c2 :: rest3 =>
        if contByte c1 && contByte c2 then
          let cp := (b - 224) * 4096 + (c1 - 128) * 64 + (c2 - 128)
          if 2048 ≤ cp && !(55296 ≤ cp && cp < 57344) then
            (utf8DecodeChars rest3).map (fun cs => Char.ofNat cp :: cs)
          else none
        else none
      | _ => none
    else if b < 248 then
      match rest with
      | c1 :: c2 :: c3 :: rest4 =>
        if contByte c1 && contByte c2 && contByte c3 then
          let cp := (b - 240) * 262144 + (c1 - 128) * 4096 + (c2 - 128) * 64
            + (c3 - 128)
          if 65536 ≤ cp && cp ≤ 1114111 then
            (utf8DecodeChars rest4).map (fun cs => Char.ofNat cp :: cs)
          else none
        else none
      | _ => none
    else none

/-- Model of `str::from_utf8` applied to captured stdout bytes. -/
def utf8Decode (bs : List Nat) : Option String :=
  (utf8DecodeChars bs).map String.mk

/-- Model of `SysCommand::command` / `SysCommand::commands` from
`src/cmdr.rs`, given what the operating system does for the single process
launch the method performs.  The second component counts the process
launches issued (the method spawns exactly one process and never retries).
A launch error is surfaced as-is; captured stdout is decoded as UTF-8,
invalid bytes being an error; the exit code is never inspected. -/
def sysCommandRun (outcome : LaunchOutcome) : Except CmdErr String × Nat :=
  match outcome with
  | LaunchOutcome.noLaunch msg => (Except.error (CmdErr.launchFailure msg), 1)
  | LaunchOutcome.ran _ stdout =>
    (match utf8Decode stdout with
     | none => Except.error CmdErr.decodeFailure
     | some s => Except.ok s, 1)

/-! ### The library model (`src/lib.rs`) -/

/-- Selectable Python version (`enum Version` in `src/lib.rs`). -/
inductive Version where
  | Three
  | Two
deriving DecidableEq, Repr

/-- The `Error` enum of `src/lib.rs`.  `ioError` wraps the commander's
`io::Error` (the spec's ProcessLaunchFailure / DecodeFailure);
`Python3Only` is the spec's VersionMismatch; `Other` carries the static
message of a one-off error (the spec's ParseFailure and
PathEncodingFailure cases). -/
inductive Error where
  | ioError (e : CmdErr)
  | Python3Only
  | Other (msg : String)
deriving DecidableEq, Repr

/-- Result of an accessor together with the list of commands the accessor
issued to its commander, so that claims about subprocess-call counts are
statable.  Each entry is one argument list handed to `Commander::commands`
(one spawned process). -/
def PyRes (α : Type) : Type := Except Error α × List (List String)

/-- Host operating system, deciding the `cfg!(target_os = ...)` checks of
the `target_line!` macro in `src/script.rs`. -/
inductive TargetOs where
  | linux
  | macos
  | windows
deriving DecidableEq, Repr

/-- Model of Rust `cfg!(target_os = target)` for the two targets the
`target_line!` macro is instantiated with. -/
def cfgTargetOs (host : TargetOs) (target : String) : Bool :=
  match host with
  | TargetOs.linux => target = "linux"
  | TargetOs.macos => target = "macos"
  | TargetOs.windows => false

/-- The `target_line!` macro of `src/script.rs`: the line when the host
matches the target, and the empty statement otherwise. -/
def target_line (host : TargetOs) (target : String) (line : String) : String :=
  if cfgTargetOs host target then line else ""

/-- The `linux_line!` macro of `src/script.rs`. -/
def linux_line (host : TargetOs) (line : String) : String :=
  target_line host "linux" line

/-- The `macos_line!` macro of `src/script.rs`. -/
def macos_line (host : TargetOs) (line : String) : String :=
  target_line host "macos" line

/-- The `tab!` macro of `src/script.rs`: a prefixing tab. -/
def tabLine (line : String) : String := "\t" ++ line

/-- The common script prelude pushed by `build_script` in `src/lib.rs`:
it imports the configuration-lookup facility (`sysconfig`), binds the
dotted runtime version string to `pyver`, and binds the shorthand
configuration-variable accessor `getvar`. -/
def scriptPrelude : String :=
  "from __future__ import print_function\n" ++
  "import sysconfig\n" ++
  "pyver = sysconfig.get_config_var(\x27VERSION\x27)\n" ++
  "getvar = sysconfig.get_config_var\n"

/-- `build_script` from `src/lib.rs`: the fixed prelude followed by the
given lines joined with newlines. -/
def build_script (lines : List String) : String :=
  scriptPrelude ++ pyJoin "\n" lines

/-- The `PythonConfig` handle of `src/lib.rs`: a commander plus the
version tag chosen at construction. -/
structure PythonConfig where
  cmdr : Cmdr
  ver : Version

/-- `PythonConfig::is_py3`: a pure in-memory check of the version tag. -/
def PythonConfig.is_py3 (cfg : PythonConfig) : Except Error Unit :=
  if cfg.ver ≠ Version.Three then Except.error Error.Python3Only
  else Except.ok ()

/-- One call to `Commander::commands` (one subprocess), with the issued
argument list logged. -/
def PythonConfig.commands (cfg : PythonConfig) (args : List String) :
    PyRes String :=
  (match cfg.cmdr.run args with
   | Except.ok s => Except.ok s
   | Except.error e => Except.error (Error.ioError e), [args])

/-- `PythonConfig::script`: runs the interpreter with `-c` and the built
script. -/
def PythonConfig.script (cfg : PythonConfig) (lines : List String) :
    PyRes String :=
  cfg.commands ["-c", build_script lines]

/-- `PythonConfig::version_raw`: runs `<program> --version` directly and
returns the captured output as-is. -/
def PythonConfig.version_raw (cfg : PythonConfig) : PyRes String :=
  cfg.commands ["--version"]

/-- Static message of the missing-token parse error in
`PythonConfig::semantic_version`. -/
def parseMissingMsg : String :=
  "expected --version to return a string resembling \x27Python X.Y.Z\x27"

/-- Static message of the invalid-semver parse error in
`PythonConfig::semantic_version`. -/
def parseSemverMsg : String := "unable to parse semver"

/-- `PythonConfig::semantic_version`: splits the `version_raw` response on
whitespace, discards the first token, and parses the second token as a
semantic version. -/
def PythonConfig.semantic_version (cfg : PythonConfig) : PyRes SemVer :=
  match cfg.version_raw with
  | (Except.error e, log) => (Except.error e, log)
  | (Except.ok resp, log) =>
    match (rustSplitWhitespace resp)[1]? with
    | none => (Except.error (Error.Other parseMissingMsg), log)
    | some ver =>
      match semverParse ver with
      | none => (Except.error (Error.Other parseSemverMsg), log)
      | some v => (Except.ok v, log)

/-- `PythonConfig::prefix` (named `prefix_` because `prefix` is a Lean
keyword): prints the `prefix` configuration variable. -/
def PythonConfig.prefix_ (cfg : PythonConfig) : PyRes String :=
  cfg.script ["print(getvar(\x27prefix\x27))"]

/-- `PythonConfig::exec_prefix` (renamed for the same reason as
`prefix_`): prints the `exec_prefix` configuration variable. -/
def PythonConfig.exec_prefix_ (cfg : PythonConfig) : PyRes String :=
  cfg.script ["print(getvar(\x27exec_prefix\x27))"]

/-- The two script lines of `PythonConfig::includes`. -/
def includesLines : List String :=
  ["flags = [\x27-I\x27 + sysconfig.get_path(\x27include\x27), \x27-I\x27 + sysconfig.get_path(\x27platinclude\x27)]",
   "print(\x27 \x27.join(flags))"]

/-- The two script lines of `PythonConfig::include_paths`. -/
def includePathsLines : List String :=
  ["print(sysconfig.get_path(\x27include\x27))",
   "print(sysconfig.get_path(\x27platinclude\x27))"]

/-- `PythonConfig::includes`: one line of `-I`-prefixed paths joined by a
single space. -/
def PythonConfig.includes (cfg : PythonConfig) : PyRes String :=
  cfg.script includesLines

/-- `PythonConfig::include_paths`: the same two lookups printed on their
own lines, split back into a list of paths (`PathBuf` modelled as
`String`). -/
def PythonConfig.include_paths (cfg : PythonConfig) : PyRes (List String) :=
  match cfg.script includePathsLines with
  | (Except.ok resp, log) => (Except.ok (rustLines resp), log)
  | (Except.error e, log) => (Except.error e, log)

/-- The script lines of `PythonConfig::ldflags`, parameterized by the host
operating system that decides the `linux_line!` expansion. -/
def ldflagsLines (host : TargetOs) : List String :=
  ["import sys",
   "libs = [\x27-lpython\x27 + pyver + sys.abiflags]",
   linux_line host "libs.insert(0, \x27-L\x27 + getvar(\x27exec_prefix\x27) + \x27/lib\x27)",
   "libs += getvar(\x27LIBS\x27).split()",
   "libs += getvar(\x27SYSLIBS\x27).split()",
   "if not getvar(\x27Py_ENABLED_SHARED\x27):",
   tabLine "libs.insert(0, \x27-L\x27 + getvar(\x27LIBPL\x27))",
   "if not getvar(\x27PYTHONFRAMEWORK\x27):",
   tabLine "libs.extend(getvar(\x27LINKFORSHARED\x27).split())",
   "print(\x27 \x27.join(libs))"]

/-- `PythonConfig::ldflags`, parameterized by the host operating system
(fixed at compile time in the Rust source via `linux_line!`). -/
def PythonConfig.ldflags (cfg : PythonConfig) (host : TargetOs) :
    PyRes String :=
  cfg.script (ldflagsLines host)

/-- `PythonConfig::extension_suffix`: Python-3-only; checks the tag before
issuing any command. -/
def PythonConfig.extension_suffix (cfg : PythonConfig) : PyRes String :=
  match cfg.is_py3 with
  | Except.error e => (Except.error e, [])
  | Except.ok _ => cfg.script ["print(getvar(\x27EXT_SUFFIX\x27))"]

/-- `PythonConfig::abi_flags`: Python-3-only; checks the tag before
issuing any command. -/
def PythonConfig.abi_flags (cfg : PythonConfig) : PyRes String :=
  match cfg.is_py3 with
  | Except.error e => (Except.error e, [])
  | Except.ok _ => cfg.script ["import sys", "print(sys.abiflags)"]

/-- `PythonConfig::config_dir`: Python-3-only; checks the tag before
issuing any command. -/
def PythonConfig.config_dir (cfg : PythonConfig) : PyRes String :=
  match cfg.is_py3 with
  | Except.error e => (Except.error e, [])
  | Except.ok _ => cfg.script ["print(getvar(\x27LIBPL\x27))"]

/-- `PythonConfig::config_dir_path`: `config_dir` re-exposed as a path
(`PathBuf::from` is the identity in this model). -/
def PythonConfig.config_dir_path (cfg : PythonConfig) : PyRes String :=
  match cfg.config_dir with
  | (Except.ok s, log) => (Except.ok s, log)
  | (Except.error e, log) => (Except.error e, log)

/-- Static message of the path-encoding error of
`PythonConfig::interpreter` (the spec's PathEncodingFailure). -/
def pathEncodingMsg : String := "unable to coerce interpreter path to string"

/-- `PythonConfig::interpreter` from `src/lib.rs`.  The interpreter path
is modelled as the result of `Path::to_str` (`none` when the path is not
representable as text); `world` maps a program name to its commander
behavior.  A handle is built with tag `Three`, `semantic_version` is
queried immediately, and the tag is demoted to `Two` when the reported
major version is 2. -/
def interpreter (path : Option String)
    (world : String → List String → Except CmdErr String) :
    Except Error PythonConfig :=
  match path with
  | none => Except.error (Error.Other pathEncodingMsg)
  | some p =>
    let cfg : PythonConfig := ⟨⟨world p⟩, Version.Three⟩
    match (cfg.semantic_version).1 with
    | Except.error e => Except.error e
    | Except.ok v =>
      Except.ok (if v.major = 2 then { cfg with ver := Version.Two } else cfg)

/-! ### The Python side of the ldflags query

The `ldflags` script lines are Python source embedded as string literals in
`src/lib.rs`.  To state what `ldflags` returns against a mock interpreter,
the effect of running exactly those lines is transcribed below over an
abstract interpreter state.  A Python runtime error (for example
concatenating a string with `None`) is `Except.error ()`. -/

/-- A Python value as returned by `sysconfig.get_config_var`: `None` for
an unknown variable, a string, or an integer. -/
inductive PyVal where
  | undef
  | str (s : String)
  | int (n : Int)
deriving DecidableEq, Repr

/-- Python truthiness for the values above (`not x` in the scripts):
`None`, the empty string and the integer zero are falsy. -/
def PyVal.truthy : PyVal → Bool
  | PyVal.undef => false
  | PyVal.str s => !(s == "")
  | PyVal.int n => !(n == 0)

/-- String concatenation with a configuration value; a runtime error when
the value is not a string (as `'-L' + getvar(..)` raises in Python). -/
def PyVal.asStr : PyVal → Except Unit String
  | PyVal.str s => Except.ok s
  | _ => Except.error ()

/-- `value.split()` on a configuration value: Python whitespace splitting,
a runtime error when the value is not a string. -/
def PyVal.splitWs : PyVal → Except Unit (List String)
  | PyVal.str s => Except.ok (rustSplitWhitespace s)
  | _ => Except.error ()

/-- The state of a mock interpreter: its configuration variables and the
`sys.abiflags` attribute. -/
structure PyState where
  getvar : String → PyVal
  abiflags : String

/-- Transcription of the Python statements of the `ldflags` script from
`src/lib.rs` over a mock interpreter state.  On a non-Linux host the
`linux_line!` insert is the empty statement and is skipped, exactly as in
the built script.  Note the script asks `getvar` for the key
`Py_ENABLED_SHARED` (sic). -/
def ldflagsPyEval (host : TargetOs) (st : PyState) : Except Unit String := do
  let pyver ← (st.getvar "VERSION").asStr
  let libs := ["-lpython" ++ pyver ++ st.abiflags]
  let libs ←
    if host = TargetOs.linux then do
      let ep ← (st.getvar "exec_prefix").asStr
      pure (("-L" ++ ep ++ "/lib") :: libs)
    else pure libs
  let libsVar ← (st.getvar "LIBS").splitWs
  let syslibsVar ← (st.getvar "SYSLIBS").splitWs
  let libs := libs ++ libsVar ++ syslibsVar
  let libs ←
    if !(st.getvar "Py_ENABLED_SHARED").truthy then do
      let libpl ← (st.getvar "LIBPL").asStr
      pure (("-L" ++ libpl) :: libs)
    else pure libs
  let libs ←
    if !(st.getvar "PYTHONFRAMEWORK").truthy then do
      let lfs ← (st.getvar "LINKFORSHARED").splitWs
      pure (libs ++ lfs)
    else pure libs
  pure (pyJoin " " libs)

/-- A commander backed by a mock interpreter that answers exactly the
`ldflags` script with the transcribed evaluation above. -/
def ldflagsCmdr (host : TargetOs) (st : PyState) : Cmdr :=
  ⟨fun args =>
    if args = ["-c", build_script (ldflagsLines host)] then
      match ldflagsPyEval host st with
      | Except.ok out => Except.ok out
      | Except.error _ => Except.error (CmdErr.otherIoErr "python runtime error")
    else Except.error CmdErr.notFound⟩

/-! ### Mock commanders for the remaining claims -/

/-- A handle whose commander answers only `--version`, with the given
response text. -/
def versionMock (resp : String) : PythonConfig :=
  ⟨staticCmdr [(["--version"], resp)], Version.Three⟩

/-- A mock interpreter answering the two include-path lookups with the
paths `p1` (general include dir) and `p2` (platform-specific include dir):
the `includes` script prints the `-I`-prefixed pair space-joined, the
`include_paths` script prints one path per line. -/
def includeMock (p1 p2 : String) : PythonConfig :=
  ⟨staticCmdr
    [(["-c", build_script includesLines], "-I" ++ p1 ++ " -I" ++ p2),
     (["-c", build_script includePathsLines], p1 ++ "\n" ++ p2)],
   Version.Three⟩

/-- The marker-stripping of the repository's `include_paths_same` test:
split the `includes` output on single spaces, drop the two leading `-I`
characters of every piece, and rejoin with single spaces. -/
def stripIncludeMarkers (s : String) : String :=
  pyJoin " " ((splitChAux ' ' s.data []).map (fun l => String.mk (l.drop 2)))

/-! ### The CLI front ends (`src/bin/`) -/

/-- The recognized flags of both CLI binaries, in the declaration order of
`VALID_OPTS_TO_HANDLER`. -/
def validOpts : List String :=
  ["--prefix", "--exec-prefix", "--includes", "--libs", "--cflags",
   "--ldflags", "--extension-suffix", "--help", "--abiflags", "--configdir"]

/-- Outcome of the argument-handling phase of a CLI binary: either the
usage line (listing every flag of `validOpts`) is printed and the process
exits with the given code, or the listed recognized flags are dispatched
to their accessors in order. -/
inductive CliAction where
  | usage (exitCode : Nat)
  | dispatch (flags : List String)
deriving DecidableEq, Repr

/-- `main` of `src/bin/python3-config.rs` up to dispatch, on the arguments
after the program name: any unrecognized argument or an empty recognized
set prints usage and exits 1; otherwise a present `--help` prints usage
and exits 0; otherwise the recognized flags are dispatched in order. -/
def python3ConfigMain (args : List String) : CliAction :=
  let all_valid := args.all (fun a => validOpts.contains a)
  let cliArgs := args.filter (fun a => validOpts.contains a)
  if !all_valid || cliArgs.isEmpty then CliAction.usage 1
  else if cliArgs.contains "--help" then CliAction.usage 0
  else CliAction.dispatch cliArgs

/-- `main` of `src/bin/python-config.rs` up to dispatch: any unrecognized
argument, an empty recognized set, or a present `--help` all print usage
and exit 1. -/
def pythonConfigMain (args : List String) : CliAction :=
  let all_valid := args.all (fun a => validOpts.contains a)
  let cliArgs := args.filter (fun a => validOpts.contains a)
  if !all_valid || cliArgs.isEmpty || cliArgs.contains "--help" then
    CliAction.usage 1
  else CliAction.dispatch cliArgs

/-! ### Concrete data for witnesses -/

/-- A concrete mock interpreter state for the `ldflags` witness. -/
def sampleSt : PyState :=
  ⟨fun k =>
    if k = "VERSION" then PyVal.str "3.7"
    else if k = "exec_prefix" then PyVal.str "/usr"
    else if k = "LIBS" then PyVal.str "-lpthread -ldl"
    else if k = "SYSLIBS" then PyVal.str "-lm"
    else if k = "LIBPL" then PyVal.str "/usr/lib/python3.7/config"
    else if k = "LINKFORSHARED" then PyVal.str "-Xlinker -export-dynamic"
    else if k = "Py_ENABLE_SHARED" then PyVal.int 0
    else PyVal.undef,
   "m"⟩

/-- A concrete world for the `interpreter` witness: a Python 2
interpreter. -/
def worldPy2 : String → List String → Except CmdErr String :=
  fun _ args =>
    if args = ["--version"] then Except.ok "Python 2.7.16"
    else Except.error CmdErr.notFound

/-! ### Helper lemmas about the string models -/

theorem splitChAux_no_sep (sep : Char) :
    ∀ (xs acc : List Char), sep ∉ xs →
      splitChAux sep xs acc = [acc.reverse ++ xs]
  | [], acc, _ => by simp [splitChAux]
  | c :: cs, acc, h => by
    have hc : ¬(c = sep) := fun hh => h (by simp [hh])
    have hcs : sep ∉ cs := fun hx => h (List.mem_cons_of_mem c hx)
    simp only [splitChAux, if_neg hc]
    rw [splitChAux_no_sep sep cs (c :: acc) hcs]
    simp

theorem splitChAux_sep (sep : Char) :
    ∀ (xs ys acc : List Char), sep ∉ xs →
      splitChAux sep (xs ++ sep :: ys) acc
        = (acc.reverse ++ xs) :: splitChAux sep ys []
  | [], ys, acc, _ => by simp [splitChAux]
  | c :: cs, ys, acc, h => by
    have hc : ¬(c = sep) := fun hh => h (by simp [hh])
    have hcs : sep ∉ cs := fun hx => h (List.mem_cons_of_mem c hx)
    simp only [List.cons_append, splitChAux, if_neg hc, List.append_eq]
    rw [splitChAux_sep sep cs ys (c :: acc) hcs]
    simp

theorem lineOf_eq_reverse (l : List Char) (h : '\r' ∉ l) :
    lineOf l = l.reverse := by
  cases l with
  | nil => rfl
  | cons c t =>
    have hc : ¬(c = '\r') := fun hh => h (by simp [hh])
    simp [lineOf, if_neg hc]

theorem linesAux_no_nl :
    ∀ (xs acc : List Char), '\n' ∉ xs → (acc ≠ [] ∨ xs ≠ []) →
      linesAux xs acc = [lineOf (xs.reverse ++ acc)]
  | [], acc, _, hne => by
    have hacc : acc ≠ [] := by
      rcases hne with h | h
      · exact h
      · exact absurd rfl h
    cases acc with
    | nil => exact absurd rfl hacc
    | cons c t => simp [linesAux]
  | c :: cs, acc, h, _ => by
    have hc : ¬(c = '\n') := fun hh => h (by simp [hh])
    have hcs : '\n' ∉ cs := fun hx => h (List.mem_cons_of_mem c hx)
    simp only [linesAux, if_neg hc]
    rw [linesAux_no_nl cs (c :: acc) hcs (Or.inl (by simp))]
    simp

theorem linesAux_nl :
    ∀ (xs ys acc : List Char), '\n' ∉ xs →
      linesAux (xs ++ '\n' :: ys) acc
        = lineOf (xs.reverse ++ acc) :: linesAux ys []
  | [], ys, acc, _ => by simp [linesAux]
  | c :: cs, ys, acc, h => by
    have hc : ¬(c = '\n') := fun hh => h (by simp [hh])
    have hcs : '\n' ∉ cs := fun hx => h (List.mem_cons_of_mem c hx)
    simp only [List.cons_append, linesAux, if_neg hc, List.append_eq]
    rw [linesAux_nl cs ys (c :: acc) hcs]
    simp

theorem data_append (a b : String) : (a ++ b).data = a.data ++ b.data := rfl

theorem no_ws_no_char (p : String) (c : Char) (hc : c.isWhitespace)
    (h : ∀ x ∈ p.data, ¬ x.isWhitespace) : c ∉ p.data :=
  fun hm => (h c hm) hc

theorem rustLines_pair (p1 p2 : String)
    (h1 : ∀ c ∈ p1.data, ¬ c.isWhitespace)
    (h2 : ∀ c ∈ p2.data, ¬ c.isWhitespace)
    (hne2 : p2 ≠ "") :
    rustLines (p1 ++ "\n" ++ p2) = [p1, p2] := by
  have hdata : (p1 ++ "\n" ++ p2).data = p1.data ++ '\n' :: p2.data := by
    rw [data_append, data_append]
    simp [show ("\n" : String).data = ['\n'] from rfl]
  have hn1 : '\n' ∉ p1.data := no_ws_no_char p1 '\n' (by decide) h1
  have hn2 : '\n' ∉ p2.data := no_ws_no_char p2 '\n' (by decide) h2
  have hr1 : '\r' ∉ p1.data.reverse := by
    rw [List.mem_reverse]
    exact no_ws_no_char p1 '\r' (by decide) h1
  have hr2 : '\r' ∉ p2.data.reverse := by
    rw [List.mem_reverse]
    exact no_ws_no_char p2 '\r' (by decide) h2
  have hne2d : p2.data ≠ [] := by
    intro hh
    exact hne2 (String.ext hh)
  unfold rustLines
  rw [hdata, linesAux_nl p1.data p2.data [] hn1,
    linesAux_no_nl p2.data [] hn2 (Or.inr hne2d)]
  rw [List.append_nil, List.append_nil, lineOf_eq_reverse p1.data.reverse hr1,
    lineOf_eq_reverse p2.data.reverse hr2]
  simp [String.ext_iff]

theorem stripIncludeMarkers_pair (p1 p2 : String)
    (h1 : ∀ c ∈ p1.data, ¬ c.isWhitespace)
    (h2 : ∀ c ∈ p2.data, ¬ c.isWhitespace) :
    stripIncludeMarkers ("-I" ++ p1 ++ " -I" ++ p2) = pyJoin " " [p1, p2] := by
  have hsp1 : ' ' ∉ p1.data := no_ws_no_char p1 ' ' (by decide) h1
  have hsp2 : ' ' ∉ p2.data := no_ws_no_char p2 ' ' (by decide) h2
  have hdata : ("-I" ++ p1 ++ " -I" ++ p2).data
      = ('-' :: 'I' :: p1.data) ++ ' ' :: ('-' :: 'I' :: p2.data) := by
    rw [data_append, data_append, data_append]
    simp [show ("-I" : String).data = ['-', 'I'] from rfl,
      show (" -I" : String).data = [' ', '-', 'I'] from rfl]
  have hx1 : ' ' ∉ '-' :: 'I' :: p1.data := by
    intro hm
    simp only [List.mem_cons] at hm
    rcases hm with h | h | h
    · exact absurd h (by decide)
    · exact absurd h (by decide)
    · exact hsp1 h
  have hx2 : ' ' ∉ '-' :: 'I' :: p2.data := by
    intro hm
    simp only [List.mem_cons] at hm
    rcases hm with h | h | h
    · exact absurd h (by decide)
    · exact absurd h (by decide)
    · exact hsp2 h
  unfold stripIncludeMarkers
  rw [hdata, splitChAux_sep ' ' ('-' :: 'I' :: p1.data) ('-' :: 'I' :: p2.data) [] hx1,
    splitChAux_no_sep ' ' ('-' :: 'I' :: p2.data) [] hx2]
  simp [pyJoin, String.ext_iff]

theorem versionMock_raw (resp : String) :
    (versionMock resp).version_raw = (Except.ok resp, [["--version"]]) := rfl

theorem semantic_version_fst (resp : String) :
    ((versionMock resp).semantic_version).1 =
      match (rustSplitWhitespace resp)[1]? with
      | none => Except.error (Error.Other parseMissingMsg)
      | some tok =>
        match semverParse tok with
        | none => Except.error (Error.Other parseSemverMsg)
        | some v => Except.ok v := by
  show (match (rustSplitWhitespace resp)[1]? with
        | none => (Except.error (Error.Other parseMissingMsg), [["--version"]])
        | some tok =>
          match semverParse tok with
          | none => (Except.error (Error.Other parseSemverMsg), [["--version"]])
          | some v => (Except.ok v, [["--version"]])).1 = _
  cases h1 : (rustSplitWhitespace resp)[1]? with
  | none => rfl
  | some tok =>
    show (match semverParse tok with
          | none => (Except.error (Error.Other parseSemverMsg), [["--version"]])
          | some v => (Except.ok v, [["--version"]])).1
        = match semverParse tok with
          | none => Except.error (Error.Other parseSemverMsg)
          | some v => Except.ok v
    cases semverParse tok with
    | none => rfl
    | some v => rfl

theorem semantic_version_missing (resp : String)
    (h : (rustSplitWhitespace resp)[1]? = none) :
    ((versionMock resp).semantic_version).1
      = Except.error (Error.Other parseMissingMsg) := by
  rw [semantic_version_fst resp]
  simp only [h]

theorem semantic_version_badtok (resp tok : String)
    (h1 : (rustSplitWhitespace resp)[1]? = some tok)
    (h2 : semverParse tok = none) :
    ((versionMock resp).semantic_version).1
      = Except.error (Error.Other parseSemverMsg) := by
  rw [semantic_version_fst resp]
  simp only [h1, h2]

theorem semantic_version_ok (resp tok : String) (v : SemVer)
    (h1 : (rustSplitWhitespace resp)[1]? = some tok)
    (h2 : semverParse tok = some v) :
    ((versionMock resp).semantic_version).1 = Except.ok v := by
  rw [semantic_version_fst resp]
  simp only [h1, h2]

/-! ### Claim theorems -/

/-- C1: for every handle whose version tag is `Two`, each Python-3-only
accessor (`abi_flags`, `extension_suffix`, `config_dir`,
`config_dir_path`) returns the version-mismatch error `Error.Python3Only`,
and the commander is invoked zero times: the log of issued commands is
empty, so no subprocess call is made, whatever the commander would
answer. -/
theorem c1_version_gating (c : Cmdr) :
    PythonConfig.abi_flags ⟨c, Version.Two⟩ = (Except.error Error.Python3Only, [])
  ∧ PythonConfig.extension_suffix ⟨c, Version.Two⟩
      = (Except.error Error.Python3Only, [])
  ∧ PythonConfig.config_dir ⟨c, Version.Two⟩ = (Except.error Error.Python3Only, [])
  ∧ PythonConfig.config_dir_path ⟨c, Version.Two⟩
      = (Except.error Error.Python3Only, []) :=
  ⟨rfl, rfl, rfl, rfl⟩

/-- C2: `semantic_version` splits the `version_raw` response on
whitespace, discards the first token and parses the second token as a
semantic version: when no second token exists the result is the
ParseFailure error `Error.Other parseMissingMsg`; when the second token is
not a valid semantic version the result is the ParseFailure error
`Error.Other parseSemverMsg`; when it parses, that version is returned.
On response `"Python 3.7.2"` it returns major 3, minor 7, patch 2, and on
response `"Python"` it fails with the missing-token ParseFailure. -/
theorem c2_semantic_version_parse :
    (∀ resp, (rustSplitWhitespace resp)[1]? = none →
      ((versionMock resp).semantic_version).1
        = Except.error (Error.Other parseMissingMsg))
  ∧ (∀ resp tok, (rustSplitWhitespace resp)[1]? = some tok →
      semverParse tok = none →
      ((versionMock resp).semantic_version).1
        = Except.error (Error.Other parseSemverMsg))
  ∧ (∀ resp tok v, (rustSplitWhitespace resp)[1]? = some tok →
      semverParse tok = some v →
      ((versionMock resp).semantic_version).1 = Except.ok v)
  ∧ ((versionMock "Python 3.7.2").semantic_version).1 = Except.ok ⟨3, 7, 2⟩
  ∧ ((versionMock "Python").semantic_version).1
      = Except.error (Error.Other parseMissingMsg) :=
  ⟨semantic_version_missing, semantic_version_badtok, semantic_version_ok,
   rfl, rfl⟩

/-- Witness for C2: the general clauses applied at concrete inputs, with
the hypotheses discharged by evaluation (a response whose second token is
the valid semantic version `3.9.1`, and a response `"3.7"` whose second
token is missing). -/
theorem c2_semantic_version_parse_witness :
    ((versionMock "Python 3.9.1").semantic_version).1 = Except.ok ⟨3, 9, 1⟩
  ∧ ((versionMock "Python 3.7").semantic_version).1
      = Except.error (Error.Other parseSemverMsg) :=
  ⟨c2_semantic_version_parse.2.2.1 "Python 3.9.1" "3.9.1" ⟨3, 9, 1⟩
     (by decide) (by decide),
   c2_semantic_version_parse.2.1 "Python 3.7" "3.7" (by decide) (by decide)⟩

/-- C10: `semantic_version` never validates the runtime-name token: any
response whose second whitespace token is a valid semantic version
succeeds with that version, whatever the first token is; in particular
`"NotPython 3.7.2"` parses exactly as `"Python 3.7.2"` does. -/
theorem c10_first_token_ignored :
    (∀ resp tok v, (rustSplitWhitespace resp)[1]? = some tok →
      semverParse tok = some v →
      ((versionMock resp).semantic_version).1 = Except.ok v)
  ∧ ((versionMock "NotPython 3.7.2").semantic_version).1
      = ((versionMock "Python 3.7.2").semantic_version).1
  ∧ ((versionMock "NotPython 3.7.2").semantic_version).1 = Except.ok ⟨3, 7, 2⟩ :=
  ⟨semantic_version_ok, rfl, rfl⟩

/-- Witness for C10: the general clause applied at a concrete response
whose first token is not a runtime name at all. -/
theorem c10_first_token_ignored_witness :
    ((versionMock "AnyName 9.8.7").semantic_version).1 = Except.ok ⟨9, 8, 7⟩ :=
  c10_first_token_ignored.1 "AnyName 9.8.7" "9.8.7" ⟨9, 8, 7⟩
    (by decide) (by decide)

/-- C5: the process invoker issues exactly one launch per call and never
retries; the exit status never influences the result, so a nonzero exit is
not treated as failure and whatever standard output was produced is still
returned; stdout bytes that are not valid UTF-8 yield the decode-failure
error rather than replaced text; a binary that cannot be launched yields
the launch-failure error surfaced to the caller. -/
theorem c5_invoker_semantics :
    (∀ outcome, (sysCommandRun outcome).2 = 1)
  ∧ (∀ code code2 out, sysCommandRun (LaunchOutcome.ran code out)
      = sysCommandRun (LaunchOutcome.ran code2 out))
  ∧ (∀ code out s, utf8Decode out = some s →
      sysCommandRun (LaunchOutcome.ran code out) = (Except.ok s, 1))
  ∧ (∀ code out, utf8Decode out = none →
      sysCommandRun (LaunchOutcome.ran code out)
        = (Except.error CmdErr.decodeFailure, 1))
  ∧ (∀ msg, sysCommandRun (LaunchOutcome.noLaunch msg)
      = (Except.error (CmdErr.launchFailure msg), 1)) := by
  refine ⟨fun outcome => ?_, fun code code2 out => rfl, ?_, ?_, fun msg => rfl⟩
  · cases outcome with
    | noLaunch msg => rfl
    | ran code out => rfl
  · intro code out s h
    simp [sysCommandRun, h]
  · intro code out h
    simp [sysCommandRun, h]

/-- Witness for C5: a process that exits with the nonzero code 3 still has
its stdout (the bytes of `"ok"`) returned, and a process whose stdout is
the invalid UTF-8 byte 0xFF yields the decode failure. -/
theorem c5_invoker_semantics_witness :
    sysCommandRun (LaunchOutcome.ran 3 [111, 107]) = (Except.ok "ok", 1)
  ∧ sysCommandRun (LaunchOutcome.ran 0 [255])
      = (Except.error CmdErr.decodeFailure, 1) :=
  ⟨c5_invoker_semantics.2.2.1 3 [111, 107] "ok" rfl,
   c5_invoker_semantics.2.2.2.1 0 [255] rfl⟩

set_option maxRecDepth 4096

/-- A handle whose commander answers the `prefix` script with the given
response text. -/
def prefixMock (resp : String) : PythonConfig :=
  ⟨staticCmdr [(["-c", build_script ["print(getvar(\x27prefix\x27))"]], resp)],
   Version.Three⟩

/-- C6 records a divergence between the code and its specification: a real
interpreter terminates its printed output with a newline, yet
`SysCommand::commands` in `src/cmdr.rs` returns the captured stdout
without trimming, so `version_raw` and `prefix` return the trailing
newline to the caller instead of the trimmed text the spec (and the
repository's own `include_paths_same` unit test) expect.  The theorem
evaluates the code at the failing inputs: the untrimmed responses are
returned unchanged and differ from their trimmed forms. -/
theorem c6_output_not_trimmed :
    ((versionMock "Python 3.7.2\n").version_raw).1 = Except.ok "Python 3.7.2\n"
  ∧ rustTrim "Python 3.7.2\n" = "Python 3.7.2"
  ∧ "Python 3.7.2\n" ≠ "Python 3.7.2"
  ∧ ((prefixMock "/usr/local\n").prefix_).1 = Except.ok "/usr/local\n"
  ∧ rustTrim "/usr/local\n" = "/usr/local"
  ∧ "/usr/local\n" ≠ "/usr/local" :=
  ⟨rfl, rfl, by decide, rfl, rfl, by decide⟩

/-- C8: `build_script` produces the fixed prelude -- importing the
configuration-lookup facility `sysconfig`, binding the dotted runtime
version string to `pyver`, and binding the shorthand accessor `getvar` --
followed by the given lines joined with the newline statement separator in
caller order; and a platform-conditional line whose target does not match
the host compiles to the empty statement. -/
theorem c8_build_script_shape :
    (∀ lines, build_script lines = scriptPrelude ++ pyJoin "\n" lines)
  ∧ build_script ["lineA", "lineB"] = scriptPrelude ++ "lineA\nlineB"
  ∧ (∀ host target line, cfgTargetOs host target = false →
      target_line host target line = "")
  ∧ linux_line TargetOs.macos "libs.insert(0, \x27-L\x27 + getvar(\x27exec_prefix\x27) + \x27/lib\x27)" = ""
  ∧ macos_line TargetOs.linux "flags.extend(getvar(\x27CFLAGS\x27).split())" = "" := by
  refine ⟨fun lines => rfl, rfl, ?_, rfl, rfl⟩
  intro host target line h
  simp [target_line, h]

/-- Witness for C8: the conditional-line clause applied at a concrete
non-matching host and target. -/
theorem c8_build_script_shape_witness :
    target_line TargetOs.windows "linux" "libs.insert(0, \x27-L\x27)" = "" :=
  c8_build_script_shape.2.2.1 TargetOs.windows "linux"
    "libs.insert(0, \x27-L\x27)" (by decide)

/-- C3: against any mock interpreter answering the two include-path
lookups with two non-empty path-like strings (no whitespace characters),
`includes` returns the `-I`-prefixed pair joined by a single space,
`include_paths` returns exactly the ordered pair
[general include dir, platform-specific include dir] (duplicates
permitted), and stripping the two `-I` markers from the `includes` output
recovers the `include_paths` pair joined by a single space -- the
round-trip between the two representations. -/
theorem c3_includes_roundtrip (p1 p2 : String)
    (_hne1 : p1 ≠ "") (hne2 : p2 ≠ "")
    (h1 : ∀ c ∈ p1.data, ¬ c.isWhitespace)
    (h2 : ∀ c ∈ p2.data, ¬ c.isWhitespace) :
    ((includeMock p1 p2).includes).1 = Except.ok ("-I" ++ p1 ++ " -I" ++ p2)
  ∧ ((includeMock p1 p2).include_paths).1 = Except.ok [p1, p2]
  ∧ stripIncludeMarkers ("-I" ++ p1 ++ " -I" ++ p2) = pyJoin " " [p1, p2] := by
  refine ⟨rfl, ?_, stripIncludeMarkers_pair p1 p2 h1 h2⟩
  have base : ((includeMock p1 p2).include_paths).1
      = Except.ok (rustLines (p1 ++ "\n" ++ p2)) := rfl
  rw [base, rustLines_pair p1 p2 h1 h2 hne2]

/-- Witness for C3: the round trip evaluated at two concrete path
strings (the same path twice, as a platform where both include
directories coincide produces). -/
theorem c3_includes_roundtrip_witness :
    ((includeMock "/usr/include/python3.7m" "/usr/include/python3.7m").includes).1
      = Except.ok ("-I" ++ "/usr/include/python3.7m" ++ " -I" ++ "/usr/include/python3.7m")
  ∧ ((includeMock "/usr/include/python3.7m" "/usr/include/python3.7m").include_paths).1
      = Except.ok ["/usr/include/python3.7m", "/usr/include/python3.7m"]
  ∧ stripIncludeMarkers ("-I" ++ "/usr/include/python3.7m" ++ " -I" ++ "/usr/include/python3.7m")
      = pyJoin " " ["/usr/include/python3.7m", "/usr/include/python3.7m"] :=
  c3_includes_roundtrip "/usr/include/python3.7m" "/usr/include/python3.7m"
    (by decide) (by decide) (by decide) (by decide)

theorem ldflagsPyEval_tokens (host : TargetOs) (st : PyState)
    (pyver ep libsS sysS libpl lfsS : String)
    (hver : st.getvar "VERSION" = PyVal.str pyver)
    (hep : st.getvar "exec_prefix" = PyVal.str ep)
    (hlibs : st.getvar "LIBS" = PyVal.str libsS)
    (hsys : st.getvar "SYSLIBS" = PyVal.str sysS)
    (hlibpl : st.getvar "LIBPL" = PyVal.str libpl)
    (hlfs : st.getvar "LINKFORSHARED" = PyVal.str lfsS)
    (hsharedTypo : st.getvar "Py_ENABLED_SHARED" = PyVal.undef)
    (hfw : st.getvar "PYTHONFRAMEWORK" = PyVal.undef) :
    ldflagsPyEval host st =
      Except.ok (pyJoin " "
        (("-L" ++ libpl) ::
         ((if host = TargetOs.linux then ["-L" ++ ep ++ "/lib"] else []) ++
          ("-lpython" ++ pyver ++ st.abiflags) ::
          (rustSplitWhitespace libsS ++ rustSplitWhitespace sysS
            ++ rustSplitWhitespace lfsS)))) := by
  unfold ldflagsPyEval
  rw [hver, hep, hlibs, hsys, hlibpl, hlfs, hsharedTypo, hfw]
  cases host with
  | linux =>
    simp [PyVal.asStr, PyVal.splitWs, PyVal.truthy, Bind.bind, Except.bind, pure, Except.pure]
  | macos =>
    simp [PyVal.asStr, PyVal.splitWs, PyVal.truthy, Bind.bind, Except.bind, pure, Except.pure]
  | windows =>
    simp [PyVal.asStr, PyVal.splitWs, PyVal.truthy, Bind.bind, Except.bind, pure, Except.pure]

theorem ldflagsCmdr_run (host : TargetOs) (st : PyState) :
    (ldflagsCmdr host st).run ["-c", build_script (ldflagsLines host)]
      = match ldflagsPyEval host st with
        | Except.ok out => Except.ok out
        | Except.error _ => Except.error (CmdErr.otherIoErr "python runtime error") := by
  unfold ldflagsCmdr
  simp

/-- C4: for every mock interpreter state whose shared-library build flag
`Py_ENABLE_SHARED` is falsy and whose `PYTHONFRAMEWORK` variable is unset
(and in which the misspelled key `Py_ENABLED_SHARED` that the embedded
script actually queries is, as in any real interpreter, unset), the
`ldflags` output is the space-joined tokens in the exact relative order
[prepended `-L` tokens, beginning with `-L<LIBPL>`]
[`-lpython<version><abiflags>` token] [LIBS tokens] [SYSLIBS tokens]
[appended LINKFORSHARED tokens], with the `-L<exec_prefix>/lib` prepend
present on Linux only. -/
theorem c4_ldflags_order (host : TargetOs) (st : PyState)
    (pyver ep libsS sysS libpl lfsS : String)
    (hver : st.getvar "VERSION" = PyVal.str pyver)
    (hep : st.getvar "exec_prefix" = PyVal.str ep)
    (hlibs : st.getvar "LIBS" = PyVal.str libsS)
    (hsys : st.getvar "SYSLIBS" = PyVal.str sysS)
    (hlibpl : st.getvar "LIBPL" = PyVal.str libpl)
    (hlfs : st.getvar "LINKFORSHARED" = PyVal.str lfsS)
    (_hshared : (st.getvar "Py_ENABLE_SHARED").truthy = false)
    (hsharedTypo : st.getvar "Py_ENABLED_SHARED" = PyVal.undef)
    (hfw : st.getvar "PYTHONFRAMEWORK" = PyVal.undef) :
    (PythonConfig.ldflags ⟨ldflagsCmdr host st, Version.Three⟩ host).1 =
      Except.ok (pyJoin " "
        (("-L" ++ libpl) ::
         ((if host = TargetOs.linux then ["-L" ++ ep ++ "/lib"] else []) ++
          ("-lpython" ++ pyver ++ st.abiflags) ::
          (rustSplitWhitespace libsS ++ rustSplitWhitespace sysS
            ++ rustSplitWhitespace lfsS)))) := by
  have hrun := ldflagsCmdr_run host st
  rw [ldflagsPyEval_tokens host st pyver ep libsS sysS libpl lfsS hver hep
    hlibs hsys hlibpl hlfs hsharedTypo hfw] at hrun
  show (match (ldflagsCmdr host st).run ["-c", build_script (ldflagsLines host)] with
        | Except.ok s => Except.ok s
        | Except.error e => Except.error (Error.ioError e)) = _
  rw [hrun]

/-- Witness for C4: the token-order theorem evaluated at a concrete Linux
mock state. -/
theorem c4_ldflags_order_witness :
    (PythonConfig.ldflags ⟨ldflagsCmdr TargetOs.linux sampleSt, Version.Three⟩
        TargetOs.linux).1 =
      Except.ok (pyJoin " "
        (("-L" ++ "/usr/lib/python3.7/config") ::
         ((if TargetOs.linux = TargetOs.linux then ["-L" ++ "/usr" ++ "/lib"] else []) ++
          ("-lpython" ++ "3.7" ++ sampleSt.abiflags) ::
          (rustSplitWhitespace "-lpthread -ldl" ++ rustSplitWhitespace "-lm"
            ++ rustSplitWhitespace "-Xlinker -export-dynamic")))) :=
  c4_ldflags_order TargetOs.linux sampleSt "3.7" "/usr" "-lpthread -ldl" "-lm"
    "/usr/lib/python3.7/config" "-Xlinker -export-dynamic"
    rfl rfl rfl rfl rfl rfl rfl rfl rfl

/-- C7: constructing a handle from an interpreter path fails with the
PathEncodingFailure error when the path is not representable as text;
otherwise a handle with version tag `Three` is built, `semantic_version`
is immediately queried on it (any downstream process or parse error is
propagated), and the tag of the returned handle is demoted to `Two` if and
only if the reported major component equals 2. -/
theorem c7_interpreter_resolution :
    (∀ w, interpreter none w = Except.error (Error.Other pathEncodingMsg))
  ∧ (∀ p w e,
      (PythonConfig.semantic_version ⟨⟨w p⟩, Version.Three⟩).1 = Except.error e →
      interpreter (some p) w = Except.error e)
  ∧ (∀ p w v,
      (PythonConfig.semantic_version ⟨⟨w p⟩, Version.Three⟩).1 = Except.ok v →
      interpreter (some p) w
        = Except.ok ⟨⟨w p⟩,
            if v.major = 2 then Version.Two else Version.Three⟩) := by
  refine ⟨fun w => rfl, ?_, ?_⟩
  · intro p w e h
    show (match (PythonConfig.semantic_version ⟨⟨w p⟩, Version.Three⟩).1 with
          | Except.error e => Except.error e
          | Except.ok v =>
            Except.ok (if v.major = 2
              then (⟨⟨w p⟩, Version.Two⟩ : PythonConfig)
              else ⟨⟨w p⟩, Version.Three⟩))
        = Except.error e
    rw [h]
  · intro p w v h
    show (match (PythonConfig.semantic_version ⟨⟨w p⟩, Version.Three⟩).1 with
          | Except.error e => Except.error e
          | Except.ok v =>
            Except.ok (if v.major = 2
              then (⟨⟨w p⟩, Version.Two⟩ : PythonConfig)
              else ⟨⟨w p⟩, Version.Three⟩))
        = Except.ok ⟨⟨w p⟩, if v.major = 2 then Version.Two else Version.Three⟩
    rw [h]
    by_cases hv : v.major = 2
    · simp [hv]
    · simp [hv]

/-- Witness for C7: a world whose `--version` answer is `"Python 2.7.16"`
resolves to a handle demoted to version `Two`. -/
theorem c7_interpreter_resolution_witness :
    interpreter (some "python") worldPy2
      = Except.ok ⟨⟨worldPy2 "python"⟩,
          if (SemVer.mk 2 7 16).major = 2 then Version.Two else Version.Three⟩ :=
  c7_interpreter_resolution.2.2 "python" worldPy2 ⟨2, 7, 16⟩ rfl

/-- C9 as stated is false for one of the two CLI binaries in the
repository: `src/bin/python-config.rs` folds `--help` into the same branch
as the error cases and exits with the failure status 1, not success.  This
counterexample evaluates that binary's argument handling at the single
flag `--help`. -/
theorem c9_help_exits_failure_counterexample :
    pythonConfigMain ["--help"] = CliAction.usage 1 ∧ (1 : Nat) ≠ 0 :=
  ⟨rfl, by decide⟩

/-- C9 (amended): for the `python3-config` binary, the single flag
`--help` prints the usage line and exits with success status 0, while zero
recognized flags or any unrecognized flag prints the usage line and exits
with failure status 1; the legacy `python-config` binary prints the usage
line and exits with failure status 1 in all of these cases, including
`--help`. -/
theorem c9_cli_usage_amended :
    python3ConfigMain ["--help"] = CliAction.usage 0
  ∧ (∀ args, args.filter (fun a => validOpts.contains a) = [] →
      python3ConfigMain args = CliAction.usage 1)
  ∧ (∀ args a, a ∈ args → validOpts.contains a = false →
      python3ConfigMain args = CliAction.usage 1)
  ∧ (∀ args, "--help" ∈ args → pythonConfigMain args = CliAction.usage 1)
  ∧ pythonConfigMain [] = CliAction.usage 1
  ∧ pythonConfigMain ["--what"] = CliAction.usage 1 := by
  refine ⟨rfl, ?_, ?_, ?_, rfl, rfl⟩
  · intro args h
    unfold python3ConfigMain
    rw [h]
    simp
  · intro args a ha hvalid
    have hall : args.all (fun a => validOpts.contains a) = false := by
      cases hallc : args.all (fun a => validOpts.contains a) with
      | false => rfl
      | true =>
        have := List.all_eq_true.mp hallc a ha
        rw [hvalid] at this
        cases this
    unfold python3ConfigMain
    rw [hall]
    simp
  · intro args hmem
    have hhelp : (args.filter (fun a => validOpts.contains a)).contains "--help"
        = true := by
      have hin : "--help" ∈ args.filter (fun a => validOpts.contains a) :=
        List.mem_filter.mpr ⟨hmem, by decide⟩
      exact List.elem_eq_true_of_mem hin
    unfold pythonConfigMain
    simp only [hhelp]
    simp

/-- Witness for C9 (amended): the unrecognized-flag clause of the
`python3-config` binary and the `--help` clause of the `python-config`
binary applied at concrete argument lists. -/
theorem c9_cli_usage_amended_witness :
    python3ConfigMain ["--what"] = CliAction.usage 1
  ∧ pythonConfigMain ["--prefix", "--help"] = CliAction.usage 1 :=
  ⟨c9_cli_usage_amended.2.2.1 ["--what"] "--what" (by decide) (by decide),
   c9_cli_usage_amended.2.2.2.1 ["--prefix", "--help"] (by decide)⟩
